import Mathlib

/-!
Shallow embedding of the CKAN datastore action-orchestration layer
(`ckanext/datastore/logic/action.py`).

Python dictionaries of scalar values are modelled as association lists,
stateful collaborators (resource registry, metadata catalog, search index,
configuration, access policy) as fields of an explicit environment, and each
action as a function from the environment and its arguments to a trace of
collaborator events, an outcome, and the updated environment.  Raising an
exception is modelled by returning the corresponding outcome.
-/

namespace CkanDatastore

/-- Scalar values stored in resource extras, filters and indexed documents. -/
inductive Val where
  | bool (b : Bool)
  | str (s : String)
  deriving DecidableEq

/-- Lookup in a Python-style dictionary (association list, first key wins). -/
def dictGet : List (String × Val) → String → Option Val
  | [], _ => none
  | p :: ps, k => if p.1 == k then some p.2 else dictGet ps k

/-- Python `d.update(\x7bk: v\x7d)`: replace the value at an existing key in
place, or append the key if absent; all other keys are untouched. -/
def dictUpdate : List (String × Val) → String → Val → List (String × Val)
  | [], k, v => [(k, v)]
  | p :: ps, k, v =>
    if p.1 == k then (p.1, v) :: dictUpdate ps k v else p :: dictUpdate ps k v

/-- A CKAN resource as stored in the Resource Registry (`model.Resource`),
with the owning package's id and privacy flag inlined. -/
structure Resource where
  id : String
  url_type : Option String
  extras : List (String × Val)
  package_id : String
  package_private : Bool
  deriving DecidableEq

/-- One row of the reserved `_table_metadata` catalog: `alias_of` is `none`
for real tables and points to the real table name for aliases. -/
structure CatalogRow where
  name : String
  alias_of : Option String
  deriving DecidableEq

/-- The resource sub-document of an indexed package document. -/
structure SolrResourceDoc where
  id : String
  fields : List (String × Val)
  deriving DecidableEq

/-- An indexed package document in the Search Index. -/
structure SolrDoc where
  package_id : String
  resources : List SolrResourceDoc
  deriving DecidableEq

/-- Lookup of a resource by id (`model.Resource.get`). -/
def lookupResource (rs : List Resource) (rid : String) : Option Resource :=
  rs.find? (fun r => r.id == rid)

/-- Modelled from the spec: the Search Index query `id:"pid"` with `rows = 1`
(the `Search Index: query(criteria) -> documents` collaborator) returns at
most one indexed document whose package id matches. -/
def solrQueryPackage (solr : List SolrDoc) (pid : String) : List SolrDoc :=
  (solr.filter (fun d => d.package_id == pid)).take 1

/-- Modelled from the spec: `Search Index: index(document)` re-submits a whole
package document, replacing the stored document with the same package id. -/
def index_package (solr : List SolrDoc) (doc : SolrDoc) : List SolrDoc :=
  if solr.any (fun d => d.package_id == doc.package_id) then
    solr.map (fun d => if d.package_id == doc.package_id then doc else d)
  else solr ++ [doc]

/-- The inner loop of `set_datastore_active_flag`: walk the document's
resource sub-documents, patch the first one whose id matches and stop
(`break`); `none` when no sub-document matches. -/
def patchResourceDocs (rid : String) (flag : Bool) :
    List SolrResourceDoc → Option (List SolrResourceDoc)
  | [] => none
  | r :: rs =>
    if r.id == rid then
      some ({ r with fields := dictUpdate r.fields "datastore_active" (.bool flag) } :: rs)
    else
      match patchResourceDocs rid flag rs with
      | some rs2 => some (r :: rs2)
      | none => none

/-- The outer loop of `set_datastore_active_flag`: for each returned record,
patch the matching resource sub-document (if any) and re-index the document;
a record with no matching sub-document is skipped without error. -/
def syncSolrLoop (rid : String) (flag : Bool) :
    List SolrDoc → List SolrDoc → List SolrDoc
  | solr, [] => solr
  | solr, doc :: docs =>
    match patchResourceDocs rid flag doc.resources with
    | some rs2 => syncSolrLoop rid flag (index_package solr { doc with resources := rs2 }) docs
    | none => syncSolrLoop rid flag solr docs

/-- Result state of `set_datastore_active_flag`: the registry rows and the
search-index documents after the call. -/
structure SyncResult where
  resources : List Resource
  solr : List SolrDoc
  deriving DecidableEq

/-- `set_datastore_active_flag(model, data_dict, flag)`: fetch the one
registry row for the resource (`res_query.one()` raises unless exactly one
row matches, modelled as `none`), patch only the `datastore_active` key of
its extras dict, write the patched extras back and commit; then query the
Search Index for the owning package's document and, when a resource
sub-document with the given id is found, patch it and re-index the whole
document.  (The resource-revision update in the source filters on
`ResourceRevision.current is True`, a Python identity test that is always
`False`, so it matches no rows and has no modelled effect.) -/
def set_datastore_active_flag (resources : List Resource) (solr : List SolrDoc)
    (resource_id : String) (flag : Bool) : Option SyncResult :=
  match resources.filter (fun r => r.id == resource_id) with
  | [r] =>
    let extras2 := dictUpdate r.extras "datastore_active" (.bool flag)
    let resources2 := resources.map
      (fun x => if x.id == resource_id then { x with extras := extras2 } else x)
    let results := solrQueryPackage solr r.package_id
    some { resources := resources2, solr := syncSolrLoop resource_id flag solr results }
  | _ => none

/-- The reserved identifiers exempt from access-policy evaluation in
`datastore_search`. -/
def WHITELISTED_RESOURCES : List String := ["_table_metadata"]

/-- Environment of an action call: configuration, the three backing stores,
and the external collaborators (access policy, plugin registry, the
single-statement helper and the table-name validator, both abstract
predicates since they live outside this module). -/
structure Env where
  config_write_url : String
  config_read_url : Option String
  resources : List Resource
  catalog : List CatalogRow
  solr : List SolrDoc
  accessAllowed : String → Option String → Bool
  datapusher_loaded : Bool
  is_single_statement : String → Bool
  is_valid_table_name : String → Bool
  freshId : String

/-- Observable collaborator calls made by an action, in order. -/
inductive Event where
  | checkAccess (action : String) (resource_id : Option String)
  | setConnection (url : String)
  | resourceShow (id : String)
  | resourceCreate (id : String)
  | resourceUpdate (id : String)
  | datapusherSubmit (id : String)
  | dbCreate (privateFlag : Bool)
  | dbUpsert (id : String)
  | dbDelete (id : String)
  | dbSearch (id : String)
  | dbSearchSql (sql : String)
  | setActiveFlag (id : String) (flag : Bool)
  deriving DecidableEq

/-- Outcome of an action call: a returned result dict, a bare `return`
(Python `None`), or one of the raised exception classes. -/
inductive Outcome where
  | ok
  | okNone
  | validationError (key : String)
  | notFound (rid : String)
  | notAuthorized (action : String)
  | fatalError (msg : String)
  deriving DecidableEq

/-- The trace, outcome and post-state of one action call. -/
structure ARes where
  trace : List Event
  out : Outcome
  env : Env

/-- Catalog test used by `datastore_upsert` and `datastore_delete`:
`SELECT 1 FROM "_table_metadata" WHERE name = :id AND alias_of IS NULL`. -/
def catalogHasReal (catalog : List CatalogRow) (rid : String) : Bool :=
  catalog.any (fun row => row.name == rid && row.alias_of == none)

/-- `_check_read_only`: fetch the resource via `resource_show` (not-found if
absent from the registry) and raise the read-only validation error unless its
`url_type` is `"datastore"`.  Returns the raised outcome, if any. -/
def _check_read_only (env : Env) (resource_id : String) : Option Outcome :=
  match lookupResource env.resources resource_id with
  | none => some (.notFound resource_id)
  | some r =>
    if r.url_type == some "datastore" then none
    else some (.validationError "read-only")

/-- Events emitted by the read-only gate: `resource_show` is consulted only
when `force` is not set. -/
def gateEvents (force : Bool) (rid : String) : List Event :=
  match force with
  | true => []
  | false => [.resourceShow rid]

/-- Error raised by the read-only gate, skipped entirely under `force`. -/
def gateError (env : Env) (force : Bool) (rid : String) : Option Outcome :=
  match force with
  | true => none
  | false => _check_read_only env rid

/-- `datastore_upsert(context, data_dict)` after schema validation (the navl
validator is an external collaborator; these claims concern post-validation
behavior): access check, read-only gate unless `force`, write connection,
catalog existence check (real tables only), then delegate to `db.upsert`. -/
def datastore_upsert (env : Env) (resource_id : String) (force : Bool) : ARes :=
  let tAcc := [Event.checkAccess "datastore_upsert" (some resource_id)]
  if env.accessAllowed "datastore_upsert" (some resource_id) then
    match gateError env force resource_id with
    | some err => { trace := tAcc ++ gateEvents force resource_id, out := err, env := env }
    | none =>
      let t2 := tAcc ++ gateEvents force resource_id ++
        [Event.setConnection env.config_write_url]
      if catalogHasReal env.catalog resource_id then
        { trace := t2 ++ [Event.dbUpsert resource_id], out := .ok, env := env }
      else
        { trace := t2, out := .notFound resource_id, env := env }
  else { trace := tAcc, out := .notAuthorized "datastore_upsert", env := env }

/-- Python truthiness of `data_dict.get('filters')`: falsy when the key is
absent or the dict is empty. -/
def filtersFalsy (filters : Option (List (String × Val))) : Bool :=
  match filters with
  | none => true
  | some l => l.isEmpty

/-- `datastore_delete(context, data_dict)` after schema validation: access
check, read-only gate unless `force`, write connection, catalog existence
check, delegate to `db.delete` (the physical drop itself is the Table
Engine's, outside this module), then re-fetch the resource and, when
`data_dict.get('filters')` is falsy and the `datastore_active` extra is the
boolean `True`, invoke the Active-Flag Synchronizer with `False`. -/
def datastore_delete (env : Env) (resource_id : String)
    (filters : Option (List (String × Val))) (force : Bool) : ARes :=
  let tAcc := [Event.checkAccess "datastore_delete" (some resource_id)]
  if env.accessAllowed "datastore_delete" (some resource_id) then
    match gateError env force resource_id with
    | some err => { trace := tAcc ++ gateEvents force resource_id, out := err, env := env }
    | none =>
      let t2 := tAcc ++ gateEvents force resource_id ++
        [Event.setConnection env.config_write_url]
      if catalogHasReal env.catalog resource_id then
        let t3 := t2 ++ [Event.dbDelete resource_id]
        match lookupResource env.resources resource_id with
        | none => { trace := t3, out := .fatalError "resource-missing", env := env }
        | some r =>
          if filtersFalsy filters &&
              (dictGet r.extras "datastore_active" == some (.bool true)) then
            match set_datastore_active_flag env.resources env.solr resource_id false with
            | some sr =>
              { trace := t3 ++ [Event.setActiveFlag resource_id false], out := .ok,
                env := { env with resources := sr.resources, solr := sr.solr } }
            | none => { trace := t3, out := .fatalError "sync-one", env := env }
          else { trace := t3, out := .ok, env := env }
      else
        { trace := t2, out := .notFound resource_id, env := env }
  else { trace := tAcc, out := .notAuthorized "datastore_delete", env := env }

/-- Alias substitution in `datastore_search`: `results.fetchone()[0]` is the
first matching row's `alias_of`, and a truthy value (a non-empty string)
replaces the supplied identifier. -/
def resolveSearchId (rows : List CatalogRow) (resource_id : String) : String :=
  match rows.head? with
  | some row =>
    match row.alias_of with
    | some real => if real == "" then resource_id else real
    | none => resource_id
  | none => resource_id

/-- `datastore_search(context, data_dict)` after schema validation: select
the write connection, look the identifier up in the catalog (not-found when
no row has that name), and unless the identifier is whitelisted, replace a
truthy `alias_of` with the real table id before the access check; the
whitelisted identifier skips access evaluation entirely.  Delegates to
`db.search`. -/
def datastore_search (env : Env) (resource_id : String) : ARes :=
  let t0 := [Event.setConnection env.config_write_url]
  let rows := env.catalog.filter (fun row => row.name == resource_id)
  if rows.isEmpty then { trace := t0, out := .notFound resource_id, env := env }
  else if resource_id ∈ WHITELISTED_RESOURCES then
    { trace := t0 ++ [Event.dbSearch resource_id], out := .ok, env := env }
  else
    let rid := resolveSearchId rows resource_id
    let t1 := t0 ++ [Event.checkAccess "datastore_search" (some rid)]
    if env.accessAllowed "datastore_search" (some rid) then
      { trace := t1 ++ [Event.dbSearch rid], out := .ok, env := env }
    else { trace := t1, out := .notAuthorized "datastore_search", env := env }

/-- `datastore_search_sql(context, data_dict)`: bust on a missing `sql` key,
reject a multi-statement string before anything else, check access, select
the read-only connection (a `KeyError` in legacy mode), and delegate to
`db.search_sql`. -/
def datastore_search_sql (env : Env) (sql : Option String) : ARes :=
  match sql with
  | none => { trace := [], out := .validationError "sql", env := env }
  | some s =>
    if env.is_single_statement s then
      let t0 := [Event.checkAccess "datastore_search_sql" none]
      if env.accessAllowed "datastore_search_sql" none then
        match env.config_read_url with
        | none => { trace := t0, out := .fatalError "read_url-missing", env := env }
        | some u =>
          { trace := t0 ++ [Event.setConnection u, Event.dbSearchSql s],
            out := .ok, env := env }
      else { trace := t0, out := .notAuthorized "datastore_search_sql", env := env }
    else { trace := [], out := .validationError "query", env := env }

/-- The `resource` argument of `datastore_create`, reduced to what the
orchestrator inspects: whether a `url` key is present, and the owning
package's id and privacy flag (consulted via the created registry row). -/
structure ResourceSpec where
  has_url : Bool
  package_id : String
  package_private : Bool
  deriving DecidableEq

/-- The post-validation input of `datastore_create`. -/
structure CreateInput where
  resource_id : Option String
  resource : Option ResourceSpec
  force : Bool
  aliases : List String
  deriving DecidableEq

/-- Tail of `datastore_create` shared by both input forms: select the write
connection, validate every alias name, fetch the resource from the registry,
set the `private` flag exactly when a read url is configured (legacy mode
off) and the owning package is private, delegate to `db.create` (modelled
from the spec: the Table Engine adds the real catalog row and replaces the
alias rows, since `db.py` is outside this module), and when the
`datastore_active` extra is not the boolean `True`, invoke the Active-Flag
Synchronizer with `True`. -/
def createCommon (env : Env) (t : List Event) (rid : String)
    (aliases : List String) : ARes :=
  let t1 := t ++ [Event.setConnection env.config_write_url]
  if aliases.all (fun a => env.is_valid_table_name a) then
    match lookupResource env.resources rid with
    | none => { trace := t1, out := .fatalError "resource-missing", env := env }
    | some r =>
      let privateFlag := env.config_read_url.isSome && r.package_private
      let catalog2 :=
        (if env.catalog.any (fun row => row.name == rid && row.alias_of == none)
         then env.catalog else env.catalog ++ [⟨rid, none⟩])
      let catalog3 := (catalog2.filter (fun row => !(row.alias_of == some rid))) ++
        aliases.map (fun a => ⟨a, some rid⟩)
      let env2 := { env with catalog := catalog3 }
      let t2 := t1 ++ [Event.dbCreate privateFlag]
      if dictGet r.extras "datastore_active" == some (.bool true) then
        { trace := t2, out := .ok, env := env2 }
      else
        match set_datastore_active_flag env2.resources env2.solr rid true with
        | some sr =>
          { trace := t2 ++ [Event.setActiveFlag rid true], out := .ok,
            env := { env2 with resources := sr.resources, solr := sr.solr } }
        | none => { trace := t2, out := .fatalError "sync-one", env := env2 }
  else { trace := t1, out := .validationError "alias", env := env }

/-- `datastore_create(context, data_dict)` after schema validation: access
check, the resource/resource_id mutual-exclusion checks, then either create
the owning resource (deferring wholly to the datapusher and returning `None`
when the spec carries a url, else marking the new resource datastore-typed),
or run the read-only gate on the given resource id unless `force`; both
synchronous paths continue in `createCommon`. -/
def datastore_create (env : Env) (inp : CreateInput) : ARes :=
  let t0 := [Event.checkAccess "datastore_create" inp.resource_id]
  if env.accessAllowed "datastore_create" inp.resource_id then
    match inp.resource, inp.resource_id with
    | some _, some _ => { trace := t0, out := .validationError "resource", env := env }
    | none, none => { trace := t0, out := .validationError "resource_id", env := env }
    | some spec, none =>
      let newId := env.freshId
      let newRes : Resource :=
        { id := newId, url_type := none, extras := [],
          package_id := spec.package_id, package_private := spec.package_private }
      let env1 := { env with resources := env.resources ++ [newRes] }
      let t1 := t0 ++ [Event.resourceCreate newId]
      if spec.has_url then
        if env.datapusher_loaded then
          { trace := t1 ++ [Event.datapusherSubmit newId], out := .okNone, env := env1 }
        else { trace := t1, out := .validationError "resource", env := env1 }
      else
        let res2 := env1.resources.map
          (fun r => if r.id == newId then { r with url_type := some "datastore" } else r)
        let env2 := { env1 with resources := res2 }
        createCommon env2 (t1 ++ [Event.resourceUpdate newId]) newId inp.aliases
    | none, some rid =>
      match gateError env inp.force rid with
      | some err =>
        { trace := t0 ++ gateEvents inp.force rid, out := err, env := env }
      | none => createCommon env (t0 ++ gateEvents inp.force rid) rid inp.aliases
  else { trace := t0, out := .notAuthorized "datastore_create", env := env }

/-! Concrete environments used by witnesses and counterexamples. -/

/-- A baseline environment: empty stores, permissive collaborators. -/
def envBase : Env where
  config_write_url := "postgres-write"
  config_read_url := some "postgres-read"
  resources := []
  catalog := []
  solr := []
  accessAllowed := fun _ _ => true
  datapusher_loaded := true
  is_single_statement := fun _ => true
  is_valid_table_name := fun _ => true
  freshId := "r1"

/-- An environment whose single-statement helper rejects every string. -/
def envMulti : Env :=
  { envBase with is_single_statement := fun _ => false }

/-- A registry row for a resource whose provenance is not datastore-managed
(for instance an uploaded file): `url_type` is unset. -/
def rPlain : Resource :=
  { id := "r1", url_type := none, extras := [], package_id := "p1",
    package_private := false }

/-- Environment with one non-datastore registry resource and no datastore
table for it. -/
def envC4 : Env := { envBase with resources := [rPlain] }

/-- A datastore-backed resource whose activation flag is currently the
boolean `True`. -/
def rActive : Resource :=
  { id := "r1", url_type := some "datastore",
    extras := [("datastore_active", Val.bool true)], package_id := "p1",
    package_private := false }

/-- Environment with an active datastore table for `r1`. -/
def envC2 : Env :=
  { envBase with resources := [rActive], catalog := [⟨"r1", none⟩] }

/-- Create input: a plain resource specification without a url. -/
def inputC3 : CreateInput :=
  { resource_id := none,
    resource := some { has_url := false, package_id := "p1", package_private := false },
    force := false, aliases := [] }

/-- Environment where the configured read url equals the write url and the
owning package of `r1` is private. -/
def envC9 : Env :=
  { envBase with
    config_write_url := "u", config_read_url := some "u",
    resources := [{ id := "r1", url_type := some "datastore", extras := [],
                    package_id := "p1", package_private := true }] }

/-- Create input naming the existing resource `r1`. -/
def inputC9 : CreateInput :=
  { resource_id := some "r1", resource := none, force := false, aliases := [] }

/-- Environment whose catalog holds an alias row pointing at a real table. -/
def envC5 : Env :=
  { envBase with catalog := [⟨"alias1", some "real1"⟩, ⟨"real1", none⟩] }

/-! Helper lemmas shared across claims. -/

/-- If filtering a list by a predicate leaves exactly one element, `find?`
with the same predicate returns that element. -/
theorem find?_of_filter_singleton {α : Type} (p : α → Bool) (l : List α) (a : α)
    (h : l.filter p = [a]) : l.find? p = some a := by
  induction l with
  | nil => simp at h
  | cons x xs ih =>
    by_cases hx : p x = true
    · rw [List.filter_cons, if_pos hx] at h
      rw [List.find?_cons_of_pos _ hx]
      exact congrArg some (List.cons_eq_cons.mp h).1
    · rw [List.filter_cons, if_neg hx] at h
      rw [List.find?_cons_of_neg _ hx]
      exact ih h

/-- A lookup after appending a row with the wanted id always succeeds. -/
theorem lookupResource_append_self (rs : List Resource) (x : Resource) :
    (lookupResource (rs ++ [x]) x.id).isSome = true := by
  unfold lookupResource
  induction rs with
  | nil =>
    simp only [List.nil_append, List.find?]
    rw [beq_self_eq_true]
    rfl
  | cons y ys ih =>
    simp only [List.cons_append, List.find?]
    cases h : (y.id == x.id) with
    | true => rfl
    | false => exact ih

/-- The read-only gate only ever raises not-found or the read-only
validation error. -/
theorem gateError_some_cases (env : Env) (force : Bool) (rid : String)
    (err : Outcome) (h : gateError env force rid = some err) :
    err = Outcome.notFound rid ∨ err = Outcome.validationError "read-only" := by
  cases force with
  | true => simp [gateError] at h
  | false =>
    simp only [gateError] at h
    unfold _check_read_only at h
    cases hl : lookupResource env.resources rid with
    | none =>
      rw [hl] at h
      left
      simp at h
      exact h.symm
    | some r =>
      rw [hl] at h
      by_cases hu : (r.url_type == some "datastore") = true
      · simp [hu] at h
      · simp [hu] at h
        right
        exact h.symm

/-! Claim theorems. -/

/-- C1: for every input to `datastore_search_sql`, a sql string that is not a
single statement is rejected with a ValidationError, with no access-policy
check and no query execution; a single-statement string proceeds to access
evaluation. -/
theorem claim_C1 (env : Env) (sql : String) :
    (env.is_single_statement sql = false →
      (datastore_search_sql env (some sql)).out = Outcome.validationError "query" ∧
      (∀ a ro, Event.checkAccess a ro ∉ (datastore_search_sql env (some sql)).trace) ∧
      (∀ s, Event.dbSearchSql s ∉ (datastore_search_sql env (some sql)).trace)) ∧
    (env.is_single_statement sql = true →
      Event.checkAccess "datastore_search_sql" none ∈
        (datastore_search_sql env (some sql)).trace) := by
  constructor
  · intro h
    simp [datastore_search_sql, h]
  · intro h
    by_cases ha : env.accessAllowed "datastore_search_sql" none = true
    · cases hu : env.config_read_url <;> simp [datastore_search_sql, h, ha, hu]
    · simp [datastore_search_sql, h, ha]

/-- C1 witness: a rejected two-statement input and an accepted single
statement, at concrete environments. -/
theorem claim_C1_witness :
    (datastore_search_sql envMulti (some "q")).out = Outcome.validationError "query" ∧
    Event.checkAccess "datastore_search_sql" none ∈
      (datastore_search_sql envBase (some "q")).trace :=
  ⟨((claim_C1 envMulti "q").1 rfl).1, (claim_C1 envBase "q").2 rfl⟩

/-- C6: every connection string `datastore_search_sql` selects is the
configured read-only url, and whenever execution is reached a read-only
connection was selected. -/
theorem claim_C6 (env : Env) (sql : Option String) :
    (∀ s, Event.dbSearchSql s ∈ (datastore_search_sql env sql).trace →
      ∃ u, env.config_read_url = some u ∧
        Event.setConnection u ∈ (datastore_search_sql env sql).trace) ∧
    (∀ u, Event.setConnection u ∈ (datastore_search_sql env sql).trace →
      env.config_read_url = some u) := by
  cases sql with
  | none => simp [datastore_search_sql]
  | some s =>
    by_cases h1 : env.is_single_statement s = true
    · by_cases h2 : env.accessAllowed "datastore_search_sql" none = true
      · cases hu : env.config_read_url with
        | none => simp [datastore_search_sql, h1, h2, hu]
        | some u =>
          constructor
          · intro s2 _
            exact ⟨u, rfl, by simp [datastore_search_sql, h1, h2, hu]⟩
          · intro v hv
            simp [datastore_search_sql, h1, h2, hu] at hv
            rw [hv]
      · simp [datastore_search_sql, h1, h2]
    · simp [datastore_search_sql, h1]

/-- C6 witness at a concrete executing input. -/
theorem claim_C6_witness : envBase.config_read_url = some "postgres-read" :=
  (claim_C6 envBase (some "q")).2 "postgres-read" (by decide)

/-- C10: `datastore_search` always selects the write-capable connection url,
and never any other connection string. -/
theorem claim_C10 (env : Env) (rid : String) :
    Event.setConnection env.config_write_url ∈ (datastore_search env rid).trace ∧
    ∀ u, Event.setConnection u ∈ (datastore_search env rid).trace →
      u = env.config_write_url := by
  simp only [datastore_search]
  split
  · simp
  · split
    · simp
    · split <;> simp

/-- C10 witness at a concrete input. -/
theorem claim_C10_witness :
    Event.setConnection envBase.config_write_url ∈
      (datastore_search envBase "x").trace ∧
    "postgres-write" = envBase.config_write_url :=
  ⟨(claim_C10 envBase "x").1, (claim_C10 envBase "x").2 "postgres-write" (by decide)⟩

/-- C8: a `datastore_create` call whose resource specification carries a url
(with the datapusher loaded and access granted) creates the owning resource,
submits its id to the ingestion trigger, and returns `None` immediately:
no Table Engine call, no catalog change, no table description returned. -/
theorem claim_C8 (env : Env) (spec : ResourceSpec) (force : Bool)
    (aliases : List String) (hurl : spec.has_url = true)
    (hdp : env.datapusher_loaded = true)
    (hacc : env.accessAllowed "datastore_create" none = true) :
    (datastore_create env ⟨none, some spec, force, aliases⟩).out = Outcome.okNone ∧
    Event.resourceCreate env.freshId ∈
      (datastore_create env ⟨none, some spec, force, aliases⟩).trace ∧
    Event.datapusherSubmit env.freshId ∈
      (datastore_create env ⟨none, some spec, force, aliases⟩).trace ∧
    (∀ b, Event.dbCreate b ∉
      (datastore_create env ⟨none, some spec, force, aliases⟩).trace) ∧
    (datastore_create env ⟨none, some spec, force, aliases⟩).env.catalog = env.catalog ∧
    (lookupResource (datastore_create env ⟨none, some spec, force, aliases⟩).env.resources
      env.freshId).isSome = true := by
  refine ⟨?_, ?_, ?_, ?_, ?_, ?_⟩ <;>
    simp [datastore_create, hurl, hdp, hacc]
  exact lookupResource_append_self env.resources
    { id := env.freshId, url_type := none, extras := [],
      package_id := spec.package_id, package_private := spec.package_private }

/-- C8 witness at a concrete environment and specification. -/
theorem claim_C8_witness :
    (datastore_create envBase
      ⟨none, some ⟨true, "p", false⟩, false, []⟩).out = Outcome.okNone :=
  (claim_C8 envBase ⟨true, "p", false⟩ false [] rfl rfl rfl).1

/-- C2 counterexample: with `filters` present but equal to the empty dict
(a falsy value in Python), a delete on a resource whose activation flag is
the boolean `True` does invoke the Active-Flag Synchronizer with `False`,
although the claim says a delete with filters present never invokes it. -/
theorem claim_C2_counterexample :
    dictGet rActive.extras "datastore_active" = some (Val.bool true) ∧
    Event.setActiveFlag "r1" false ∈
      (datastore_delete envC2 "r1" (some []) false).trace := by decide

/-- C3 counterexample: a table created through `datastore_create` (resource
specification branch, no url, never force-flagged) gets `url_type` set to
`"datastore"`, so a subsequent `datastore_upsert` without `force` succeeds
instead of raising the read-only validation error the claim requires. -/
theorem claim_C3_counterexample :
    (datastore_create envBase inputC3).out = Outcome.ok ∧
    (datastore_upsert (datastore_create envBase inputC3).env "r1" false).out =
      Outcome.ok ∧
    (datastore_upsert (datastore_create envBase inputC3).env "r1" false).out ≠
      Outcome.validationError "read-only" := by decide

/-- C4 counterexample: for a resource id with no real catalog row but present
in the registry with a non-datastore `url_type`, an un-forced upsert raises
the read-only ValidationError (the gate runs before the existence check),
not the NotFound the claim requires for every such call. -/
theorem claim_C4_counterexample :
    catalogHasReal envC4.catalog "r1" = false ∧
    (datastore_upsert envC4 "r1" false).out = Outcome.validationError "read-only" ∧
    (datastore_upsert envC4 "r1" false).out ≠ Outcome.notFound "r1" := by decide

/-- C9 counterexample: with a read url configured equal to the write url (so
no read/write split in the claim's sense) and a private owning package,
`datastore_create` still passes `private = True` to the Table Engine: the
code tests only the presence of the read url, not distinctness. -/
theorem claim_C9_counterexample :
    envC9.config_read_url = some envC9.config_write_url ∧
    Event.dbCreate true ∈ (datastore_create envC9 inputC9).trace := by decide

/-- Updating a dict key stores the new value at that key. -/
theorem dictGet_dictUpdate_self (m : List (String × Val)) (k : String) (v : Val) :
    dictGet (dictUpdate m k v) k = some v := by
  induction m with
  | nil => simp [dictUpdate, dictGet]
  | cons p ps ih =>
    by_cases h : (p.1 == k) = true
    · simp [dictUpdate, dictGet, h]
    · simp [dictUpdate, dictGet, h, ih]

/-- Updating a dict key leaves every other key unchanged. -/
theorem dictGet_dictUpdate_ne (m : List (String × Val)) (k k2 : String)
    (v : Val) (h : k2 ≠ k) : dictGet (dictUpdate m k v) k2 = dictGet m k2 := by
  induction m with
  | nil =>
    have : (k == k2) = false := beq_eq_false_iff_ne.mpr (Ne.symm h)
    simp [dictUpdate, dictGet, this]
  | cons p ps ih =>
    by_cases hp : (p.1 == k) = true
    · have hpk : p.1 = k := eq_of_beq hp
      have hk2 : (p.1 == k2) = false := by
        rw [hpk]
        exact beq_eq_false_iff_ne.mpr (Ne.symm h)
      simp [dictUpdate, dictGet, hp, hk2, ih]
    · by_cases hq : (p.1 == k2) = true
      · simp [dictUpdate, dictGet, hp, hq]
      · simp [dictUpdate, dictGet, hp, hq, ih]

/-- When no resource sub-document matches, the inner patch loop finds
nothing. -/
theorem patchResourceDocs_eq_none (rid : String) (flag : Bool)
    (l : List SolrResourceDoc) (h : ∀ sd ∈ l, sd.id ≠ rid) :
    patchResourceDocs rid flag l = none := by
  induction l with
  | nil => rfl
  | cons r rs ih =>
    have hr : (r.id == rid) = false :=
      beq_eq_false_iff_ne.mpr (h r (List.mem_cons_self r rs))
    have ihh := ih (fun sd hsd => h sd (List.mem_cons_of_mem _ hsd))
    simp [patchResourceDocs, hr, ihh]

/-- When no returned record holds a matching sub-document, the outer loop
leaves the index untouched. -/
theorem syncSolrLoop_eq_none (rid : String) (flag : Bool) (solr : List SolrDoc)
    (docs : List SolrDoc)
    (h : ∀ doc ∈ docs, patchResourceDocs rid flag doc.resources = none) :
    syncSolrLoop rid flag solr docs = solr := by
  induction docs generalizing solr with
  | nil => rfl
  | cons d ds ih =>
    have hd := h d (List.mem_cons_self d ds)
    simp [syncSolrLoop, hd]
    exact ih solr (fun doc hdoc => h doc (List.mem_cons_of_mem _ hdoc))

/-- C5: in `datastore_search`, a non-whitelisted identifier whose catalog row
carries a (non-empty) `alias_of` has the real table id substituted before the
access-policy check, so the policy only ever sees the physical table id; a
whitelisted identifier is never subjected to any access-policy check.
(Empty alias names cannot arise: every alias passes the table-name validator
at creation.) -/
theorem claim_C5 (env : Env) (rid : String) (row : CatalogRow)
    (rest : List CatalogRow) (real : String) :
    (env.catalog.filter (fun c => c.name == rid) = row :: rest →
      row.alias_of = some real → real ≠ "" → rid ∉ WHITELISTED_RESOURCES →
      Event.checkAccess "datastore_search" (some real) ∈
        (datastore_search env rid).trace ∧
      (∀ a x, Event.checkAccess a x ∈ (datastore_search env rid).trace →
        a = "datastore_search" ∧ x = some real)) ∧
    (rid ∈ WHITELISTED_RESOURCES →
      ∀ a x, Event.checkAccess a x ∉ (datastore_search env rid).trace) := by
  constructor
  · intro hfil halias hne hwl
    have hresolve :
        resolveSearchId (env.catalog.filter (fun c => c.name == rid)) rid = real := by
      rw [hfil]
      simp [resolveSearchId, halias, hne]
    have hne2 : (env.catalog.filter (fun c => c.name == rid)).isEmpty = false := by
      rw [hfil]
      rfl
    constructor
    · by_cases hacc : env.accessAllowed "datastore_search" (some real) = true <;>
        simp [datastore_search, hne2, hwl, hresolve, hacc]
    · intro a x hmem
      by_cases hacc : env.accessAllowed "datastore_search" (some real) = true
      · simp [datastore_search, hne2, hwl, hresolve, hacc] at hmem
        exact hmem
      · simp [datastore_search, hne2, hwl, hresolve, hacc] at hmem
        exact hmem
  · intro hwl a x
    by_cases hempty : (env.catalog.filter (fun c => c.name == rid)).isEmpty = true
    · simp [datastore_search, hempty]
    · simp [datastore_search, hempty, hwl]

/-- C5 witness: a concrete alias lookup, and the whitelisted identifier. -/
theorem claim_C5_witness :
    Event.checkAccess "datastore_search" (some "real1") ∈
      (datastore_search envC5 "alias1").trace ∧
    Event.checkAccess "datastore_search" (some "_table_metadata") ∉
      (datastore_search envBase "_table_metadata").trace :=
  ⟨((claim_C5 envC5 "alias1" ⟨"alias1", some "real1"⟩ [] "real1").1
      (by decide) rfl (by decide) (by decide)).1,
   (claim_C5 envBase "_table_metadata" ⟨"", none⟩ [] "").2 (by decide)
      "datastore_search" (some "_table_metadata")⟩

/-- C7: `set_datastore_active_flag` patches only the `datastore_active` key
of the target resource's extras (every other key keeps its value, and other
resources are untouched), and when the index query returns no document with a
matching resource sub-document the index is left unchanged while the call
still succeeds with the registry committed. -/
theorem claim_C7 (resources : List Resource) (solr : List SolrDoc)
    (rid : String) (flag : Bool) (r : Resource)
    (hres : resources.filter (fun x => x.id == rid) = [r]) :
    ∃ sr, set_datastore_active_flag resources solr rid flag = some sr ∧
      (∀ x ∈ sr.resources, x.id = rid →
        dictGet x.extras "datastore_active" = some (Val.bool flag) ∧
        ∀ k, k ≠ "datastore_active" → dictGet x.extras k = dictGet r.extras k) ∧
      (∀ x ∈ resources, x.id ≠ rid → x ∈ sr.resources) ∧
      ((∀ doc ∈ solrQueryPackage solr r.package_id,
          ∀ sd ∈ doc.resources, sd.id ≠ rid) → sr.solr = solr) := by
  have heq : set_datastore_active_flag resources solr rid flag =
      some { resources := resources.map (fun x => if x.id == rid then
               { x with extras := dictUpdate r.extras "datastore_active" (Val.bool flag) }
             else x),
             solr := syncSolrLoop rid flag solr (solrQueryPackage solr r.package_id) } := by
    unfold set_datastore_active_flag
    rw [hres]
  refine ⟨_, heq, ?_, ?_, ?_⟩
  · intro x hx hxid
    obtain ⟨y, hy, hxy⟩ := List.mem_map.mp hx
    by_cases hyid : (y.id == rid) = true
    · rw [if_pos hyid] at hxy
      constructor
      · rw [← hxy]
        exact dictGet_dictUpdate_self r.extras "datastore_active" (Val.bool flag)
      · intro k hk
        rw [← hxy]
        exact dictGet_dictUpdate_ne r.extras "datastore_active" k (Val.bool flag) hk
    · rw [if_neg hyid] at hxy
      rw [← hxy] at hxid
      simp [hxid] at hyid
  · intro x hx hxid
    exact List.mem_map.mpr ⟨x, hx, by rw [if_neg]; simp [hxid]⟩
  · intro hnone
    exact syncSolrLoop_eq_none rid flag solr _
      (fun doc hdoc => patchResourceDocs_eq_none rid flag doc.resources
        (fun sd hsd => hnone doc hdoc sd hsd))

/-- C7 witness at a concrete one-resource registry and empty index. -/
theorem claim_C7_witness :
    ∃ sr, set_datastore_active_flag [rActive] [] "r1" false = some sr ∧
      (∀ x ∈ sr.resources, x.id = "r1" →
        dictGet x.extras "datastore_active" = some (Val.bool false) ∧
        ∀ k, k ≠ "datastore_active" → dictGet x.extras k = dictGet rActive.extras k) ∧
      (∀ x ∈ [rActive], x.id ≠ "r1" → x ∈ sr.resources) ∧
      ((∀ doc ∈ solrQueryPackage [] rActive.package_id,
          ∀ sd ∈ doc.resources, sd.id ≠ "r1") → sr.solr = []) :=
  claim_C7 [rActive] [] "r1" false rActive (by decide)

/-- C4 amended: for a resource id with no real (non-alias) catalog row,
`datastore_upsert` and `datastore_delete` never delegate to the Table Engine
and never return success; when the call passes the access check and the
read-only gate, the raised error is NotFound. -/
theorem claim_C4_amended (env : Env) (rid : String) (force : Bool)
    (filters : Option (List (String × Val)))
    (hcat : catalogHasReal env.catalog rid = false) :
    ((datastore_upsert env rid force).out ≠ Outcome.ok ∧
     (datastore_upsert env rid force).out ≠ Outcome.okNone ∧
     (∀ s, Event.dbUpsert s ∉ (datastore_upsert env rid force).trace)) ∧
    ((datastore_delete env rid filters force).out ≠ Outcome.ok ∧
     (datastore_delete env rid filters force).out ≠ Outcome.okNone ∧
     (∀ s, Event.dbDelete s ∉ (datastore_delete env rid filters force).trace)) ∧
    (env.accessAllowed "datastore_upsert" (some rid) = true →
      gateError env force rid = none →
      (datastore_upsert env rid force).out = Outcome.notFound rid) ∧
    (env.accessAllowed "datastore_delete" (some rid) = true →
      gateError env force rid = none →
      (datastore_delete env rid filters force).out = Outcome.notFound rid) := by
  have hup : ∀ ha : env.accessAllowed "datastore_upsert" (some rid) = true,
      ∀ hg : gateError env force rid = none,
      (datastore_upsert env rid force).out = Outcome.notFound rid := by
    intro ha hg
    simp [datastore_upsert, ha, hg, hcat]
  have hdel : ∀ ha : env.accessAllowed "datastore_delete" (some rid) = true,
      ∀ hg : gateError env force rid = none,
      (datastore_delete env rid filters force).out = Outcome.notFound rid := by
    intro ha hg
    simp [datastore_delete, ha, hg, hcat]
  refine ⟨?_, ?_, hup, hdel⟩
  · by_cases ha : env.accessAllowed "datastore_upsert" (some rid) = true
    · cases hg : gateError env force rid with
      | none =>
        cases force <;> simp [datastore_upsert, ha, hg, hcat, gateEvents]
      | some err =>
        rcases gateError_some_cases env force rid err hg with herr | herr <;>
          cases force <;> simp [datastore_upsert, ha, hg, herr, gateEvents]
    · simp [datastore_upsert, ha]
  · by_cases ha : env.accessAllowed "datastore_delete" (some rid) = true
    · cases hg : gateError env force rid with
      | none =>
        cases force <;> simp [datastore_delete, ha, hg, hcat, gateEvents]
      | some err =>
        rcases gateError_some_cases env force rid err hg with herr | herr <;>
          cases force <;> simp [datastore_delete, ha, hg, herr, gateEvents]
    · simp [datastore_delete, ha]

/-- C4 amended witness: a forced upsert on an id absent from the catalog. -/
theorem claim_C4_amended_witness :
    (datastore_upsert envBase "rX" true).out = Outcome.notFound "rX" :=
  (claim_C4_amended envBase "rX" true none rfl).2.2.1 rfl rfl

/-- C3 amended: the read-only gate fires exactly on provenance: an un-forced
`datastore_upsert` or `datastore_delete` on a resource whose `url_type` is
not `"datastore"` (an externally-populated resource) raises the read-only
validation error, while `force = true` always bypasses the gate — tables
created by `datastore_create` itself carry `url_type = "datastore"` and are
mutable without `force` (see the counterexample). -/
theorem claim_C3_amended (env : Env) (rid : String) (r : Resource)
    (filters : Option (List (String × Val)))
    (hres : lookupResource env.resources rid = some r)
    (hty : r.url_type ≠ some "datastore") :
    (env.accessAllowed "datastore_upsert" (some rid) = true →
      (datastore_upsert env rid false).out = Outcome.validationError "read-only") ∧
    (env.accessAllowed "datastore_delete" (some rid) = true →
      (datastore_delete env rid filters false).out = Outcome.validationError "read-only") ∧
    (datastore_upsert env rid true).out ≠ Outcome.validationError "read-only" ∧
    (datastore_delete env rid filters true).out ≠ Outcome.validationError "read-only" := by
  have hbeq : (r.url_type == some "datastore") = false := beq_eq_false_iff_ne.mpr hty
  have hg : gateError env false rid = some (Outcome.validationError "read-only") := by
    simp [gateError, _check_read_only, hres, hbeq]
  refine ⟨?_, ?_, ?_, ?_⟩
  · intro ha
    simp [datastore_upsert, ha, hg]
  · intro ha
    simp [datastore_delete, ha, hg]
  · by_cases ha : env.accessAllowed "datastore_upsert" (some rid) = true
    · by_cases hc : catalogHasReal env.catalog rid = true <;>
        simp [datastore_upsert, ha, gateError, hc]
    · simp [datastore_upsert, ha]
  · by_cases ha : env.accessAllowed "datastore_delete" (some rid) = true
    · by_cases hc : catalogHasReal env.catalog rid = true
      · cases hl : lookupResource env.resources rid with
        | none => simp [datastore_delete, ha, gateError, hc, hl]
        | some r2 =>
          by_cases hf : (filtersFalsy filters &&
              (dictGet r2.extras "datastore_active" == some (Val.bool true))) = true
          · cases hs : set_datastore_active_flag env.resources env.solr rid false with
            | some sr => simp [datastore_delete, ha, gateError, hc, hl, hf, hs]
            | none => simp [datastore_delete, ha, gateError, hc, hl, hf, hs]
          · simp [datastore_delete, ha, gateError, hc, hl, hf]
      · simp [datastore_delete, ha, gateError, hc]
    · simp [datastore_delete, ha]

/-- C3 amended witness: an un-forced upsert on an externally-populated
resource raises the read-only validation error. -/
theorem claim_C3_amended_witness :
    (datastore_upsert envC4 "r1" false).out = Outcome.validationError "read-only" :=
  (claim_C3_amended envC4 "r1" rPlain none rfl (by decide)).1 rfl

/-- C2 amended: on the synchronous resource-id path, `datastore_create`
invokes the synchronizer with `true` exactly when the `datastore_active`
extra was not already the boolean `True`; `datastore_delete` invokes it with
`false` exactly when `data_dict.get('filters')` is falsy (absent or the empty
dict) and the flag was the boolean `True`; a delete with a non-empty filters
dict never invokes it. -/
theorem claim_C2_amended (env : Env) (rid : String) (r : Resource)
    (force : Bool) (filters : Option (List (String × Val)))
    (hres : env.resources.filter (fun x => x.id == rid) = [r])
    (haccC : env.accessAllowed "datastore_create" (some rid) = true)
    (haccD : env.accessAllowed "datastore_delete" (some rid) = true)
    (hgate : gateError env force rid = none)
    (hcat : catalogHasReal env.catalog rid = true) :
    (Event.setActiveFlag rid true ∈
        (datastore_create env ⟨some rid, none, force, []⟩).trace ↔
      dictGet r.extras "datastore_active" ≠ some (Val.bool true)) ∧
    (Event.setActiveFlag rid false ∈
        (datastore_delete env rid filters force).trace ↔
      (filtersFalsy filters = true ∧
        dictGet r.extras "datastore_active" = some (Val.bool true))) ∧
    (∀ l, filters = some l → l ≠ [] →
      ∀ f, Event.setActiveFlag rid f ∉ (datastore_delete env rid filters force).trace) := by
  have hfind : lookupResource env.resources rid = some r :=
    find?_of_filter_singleton _ _ _ hres
  have hsync : ∀ fl, set_datastore_active_flag env.resources env.solr rid fl =
      some { resources := env.resources.map (fun x => if x.id == rid then
               { x with extras := dictUpdate r.extras "datastore_active" (Val.bool fl) }
             else x),
             solr := syncSolrLoop rid fl env.solr (solrQueryPackage env.solr r.package_id) } := by
    intro fl
    unfold set_datastore_active_flag
    rw [hres]
  refine ⟨?_, ?_, ?_⟩
  · by_cases hda : (dictGet r.extras "datastore_active" == some (Val.bool true)) = true
    · have : dictGet r.extras "datastore_active" = some (Val.bool true) := eq_of_beq hda
      cases force <;>
        simp [datastore_create, createCommon, haccC, hgate, hfind, hda, this, gateEvents]
    · have : dictGet r.extras "datastore_active" ≠ some (Val.bool true) := by
        intro hcontra
        simp [hcontra] at hda
      cases force <;>
        simp [datastore_create, createCommon, haccC, hgate, hfind, hda, hsync, this,
          gateEvents]
  · by_cases hcond : (filtersFalsy filters &&
        (dictGet r.extras "datastore_active" == some (Val.bool true))) = true
    · have hparts := Bool.and_eq_true_iff.mp hcond
      cases force <;>
        simp [datastore_delete, haccD, hgate, hcat, hfind, hcond, hsync, gateEvents,
          hparts.1, eq_of_beq hparts.2]
    · cases force <;>
        simp [datastore_delete, haccD, hgate, hcat, hfind, hcond, gateEvents] <;>
        · intro h1 h2
          rw [h1, beq_iff_eq.mpr h2] at hcond
          simp at hcond
  · intro l hl hlne f
    have hfal : filtersFalsy filters = false := by
      rw [hl]
      cases l with
      | nil => exact absurd rfl hlne
      | cons a as => rfl
    have hcond : (filtersFalsy filters &&
        (dictGet r.extras "datastore_active" == some (Val.bool true))) = false := by
      rw [hfal]
      rfl
    cases force <;>
      simp [datastore_delete, haccD, hgate, hcat, hfind, hcond, gateEvents]

/-- C2 amended witness: a filter-less delete on an active table invokes the
synchronizer with `false`. -/
theorem claim_C2_amended_witness :
    Event.setActiveFlag "r1" false ∈ (datastore_delete envC2 "r1" none false).trace :=
  ((claim_C2_amended envC2 "r1" rActive false none (by decide) rfl rfl (by decide)
    (by decide)).2.1).mpr ⟨rfl, rfl⟩

/-- C9 amended: on the synchronous resource-id path, `datastore_create`
passes `private = True` to the Table Engine exactly when a
`ckan.datastore.read_url` is configured (whatever its value, equal to the
write url or not) and the owning package is private. -/
theorem claim_C9_amended (env : Env) (rid : String) (r : Resource) (force : Bool)
    (hres : lookupResource env.resources rid = some r)
    (hacc : env.accessAllowed "datastore_create" (some rid) = true)
    (hgate : gateError env force rid = none) :
    Event.dbCreate (env.config_read_url.isSome && r.package_private) ∈
      (datastore_create env ⟨some rid, none, force, []⟩).trace ∧
    ∀ b, Event.dbCreate b ∈ (datastore_create env ⟨some rid, none, force, []⟩).trace →
      b = (env.config_read_url.isSome && r.package_private) := by
  by_cases hda : (dictGet r.extras "datastore_active" == some (Val.bool true)) = true
  · cases force <;>
      simp [datastore_create, createCommon, hacc, hgate, hres, hda, gateEvents]
  · cases hs : set_datastore_active_flag env.resources env.solr rid true with
    | some sr =>
      cases force <;>
        simp [datastore_create, createCommon, hacc, hgate, hres, hda, hs, gateEvents]
    | none =>
      cases force <;>
        simp [datastore_create, createCommon, hacc, hgate, hres, hda, hs, gateEvents]

/-- C9 amended witness: read url configured, public package, so the private
flag passed to the Table Engine is false. -/
theorem claim_C9_amended_witness :
    Event.dbCreate false ∈ (datastore_create envC2 ⟨some "r1", none, false, []⟩).trace :=
  (claim_C9_amended envC2 "r1" rActive false rfl rfl (by decide)).1

end CkanDatastore
